import Mathlib

/-!
Shallow embedding of `app/tools/bing_search.py` (dtyq/super-magic): the
Bing search tool consisting of the `BingSearchAPI` wrapper (circuit-breaker
flags, HTTP search call, response parsing) and the `BingSearch` tool facade
(validation, concurrent fan-out, enrichment, aggregation).

Modelling conventions:
- The upstream HTTP layer is a parameter: each potential network call is
  given an `UpstreamResponse` describing what the transport would produce
  (an HTTP status with body text and a parse of the JSON body, or a raised
  exception).  A batch call receives one response per query position.
- The concurrent `asyncio.gather` fan-out is modelled by its sequential
  linearization: the per-query units run left to right, threading the
  process-wide breaker state (`BingSearchAPI._api_unavailable` /
  `_api_unavailable_reason`) through the calls.  `gather` itself preserves
  input order, which the model reflects by construction.
- Python falsiness (`limit or self.k`, `if time_period:`, `if not query:`)
  is translated explicitly; Python's slice `lst[:n]` is `pyslice`, covering
  the negative-`n` case.
- Machine integers are `Int`; strings are Lean `String`; the regex
  `https?://([^/]+)` of `_extract_domain` is embedded as an explicit
  leftmost-match scanner over the character list.
- Each model function also reports the number of network attempts it made
  and (for the API layer) the query parameters of the request it issued,
  so that "no network attempt" and "the request carries parameters X"
  become statable properties.
-/

namespace BingSearchModel

/-- The process-wide circuit-breaker state: the class variables
`BingSearchAPI._api_unavailable` and `BingSearchAPI._api_unavailable_reason`
(lines 57-59 of `bing_search.py`). -/
structure Breaker where
  unavailable : Bool
  reason : String
deriving DecidableEq, Repr

/-- One item of `data["webPages"]["value"]`: the fields read by the parser,
each possibly absent (`item.get(..., "")`). -/
structure RawItem where
  name : Option String
  url : Option String
  snippet : Option String
deriving DecidableEq, Repr

/-- What the transport layer produces for one attempted request:
either an HTTP response with a status code, its body text, and the parse of
the JSON body (`parsed = none` models a body in which the expected
`webPages.value` shape is absent), or an exception raised during the
request/parse (network error, malformed JSON, ...). -/
inductive UpstreamResponse where
  | http (status : Nat) (body : String) (parsed : Option (List RawItem))
  | exn (msg : String)
deriving DecidableEq, Repr

/-- A parsed search hit `{title, link, snippet}` (lines 171-176). -/
structure SearchHit where
  title : String
  link : String
  snippet : String
deriving DecidableEq, Repr

/-- A value of a query parameter of the outbound GET request. -/
inductive ParamVal where
  | str (s : String)
  | num (n : Int)
deriving DecidableEq, Repr

/-- The instance state of `BingSearchAPI.__init__` (lines 61-73). -/
structure BingSearchAPI where
  k : Int
  search_kwargs : List (String × String)
  subscription_key : String
  search_url : String
deriving DecidableEq, Repr

/-- The configuration consumed out-of-process (`config.get`). -/
structure Config where
  search_api_key : String
  search_endpoint : String
deriving DecidableEq, Repr

/-- Build one parsed hit from one raw item (lines 172-176): absent fields
degrade to the empty string. -/
def mkHit (it : RawItem) : SearchHit :=
  ⟨it.name.getD "", it.url.getD "", it.snippet.getD ""⟩

/-- Python's `lst[:n]` for an arbitrary integer bound: nonnegative `n`
takes the first `n` elements; negative `n` drops the last `|n|`. -/
def pyslice (l : List α) (n : Int) : List α :=
  if 0 ≤ n then l.take n.toNat else l.take (l.length - (-n).toNat)

/-- Python's `limit or self.k` (lines 139 and 178): `None` and `0` are
falsy, so they fall back to `self.k`. -/
def effLimit (api : BingSearchAPI) (limit : Option Int) : Int :=
  match limit with
  | some n => if n = 0 then api.k else n
  | none => api.k

/-- The query parameters of the outbound request (lines 137-146):
`q`, `count`, then the splatted `search_kwargs`.  The subsequent
`None`-cleanup loop is a no-op on this path, since none of these values is
`None`. -/
def requestParams (api : BingSearchAPI) (query : String) (limit : Option Int) :
    List (String × ParamVal) :=
  [("q", ParamVal.str query), ("count", ParamVal.num (effLimit api limit))]
    ++ api.search_kwargs.map (fun p => (p.1, ParamVal.str p.2))

/-- The result of one `_search` call: the returned value or the raised
`ValueError`, the breaker state after the call, how many network requests
were issued (0 or 1), and the parameters of the issued request, if any. -/
structure SearchOutcome where
  result : Except String (List SearchHit)
  breaker : Breaker
  attempts : Nat
  request : Option (List (String × ParamVal))
deriving Repr

/-- `BingSearchAPI._search` (lines 111-181), with the transport's behaviour
supplied as `resp`:
1. if the breaker is open, log and return `[]` without touching the network;
2. if the subscription key is empty, raise `ValueError`;
3. otherwise issue the GET; on status 401 trip the breaker with the body as
   part of the reason and return `[]`; on any other non-200 return `[]`;
   on 200 parse `webPages.value` (absent shape gives `[]`) and truncate to
   `limit or self.k`; any exception during the request is caught and gives
   `[]`. -/
def BingSearchAPI._search (api : BingSearchAPI) (br : Breaker) (query : String)
    (limit : Option Int) (resp : UpstreamResponse) : SearchOutcome :=
  if br.unavailable then
    ⟨Except.ok [], br, 0, none⟩
  else if api.subscription_key = "" then
    ⟨Except.error "Bing Search API key is required", br, 0, none⟩
  else
    let params := requestParams api query limit
    match resp with
    | UpstreamResponse.exn _ => ⟨Except.ok [], br, 1, some params⟩
    | UpstreamResponse.http status body parsed =>
      if status ≠ 200 then
        if status = 401 then
          ⟨Except.ok [], ⟨true, "API密钥无效或API端点错误: " ++ body⟩, 1, some params⟩
        else
          ⟨Except.ok [], br, 1, some params⟩
      else
        match parsed with
        | none => ⟨Except.ok [], br, 1, some params⟩
        | some items =>
          ⟨Except.ok (pyslice (items.map mkHit) (effLimit api limit)), br, 1, some params⟩

/-- `BingSearchAPI.results` (lines 96-109): `limit = k if k is not None
else self.k`, then delegate to `_search`. -/
def BingSearchAPI.results (api : BingSearchAPI) (br : Breaker) (query : String)
    (k : Option Int) (resp : UpstreamResponse) : SearchOutcome :=
  api._search br query (some (k.getD api.k)) resp

/-- An enriched hit: the parsed hit plus the derived `domain` and
`icon_url` fields added in `_perform_search` (lines 346-350). -/
structure EnrichedHit where
  title : String
  link : String
  snippet : String
  domain : String
  icon_url : String
deriving DecidableEq, Repr

/-- One position of the regex scan of `_extract_domain`: does
`https?://` match at the head of this character list?  Returns the
characters following the `://` on success.  The greedy `s?` is resolved by
trying `https://` before `http://`. -/
def matchSchemeAt : List Char → Option (List Char)
  | 'h' :: 't' :: 't' :: 'p' :: 's' :: ':' :: '/' :: '/' :: r => some r
  | 'h' :: 't' :: 't' :: 'p' :: ':' :: '/' :: '/' :: r => some r
  | _ => none

/-- Leftmost-match semantics of `re.search(r"https?://([^/]+)", url)`
(line 361): scan positions left to right; at the first position where the
scheme matches and at least one non-`/` character follows, capture the
maximal run of non-`/` characters. -/
def findSchemeHost : List Char → Option (List Char)
  | [] => none
  | c :: rest =>
    match matchSchemeAt (c :: rest) with
    | some after =>
      let host := after.takeWhile (fun ch => ch ≠ '/')
      if host.isEmpty then findSchemeHost rest else some host
    | none => findSchemeHost rest

/-- `BingSearch._extract_domain` (lines 358-366): the captured host of the
url, or the url unchanged when the pattern does not match.  The function is
total; the `except` clause of the source never fires. -/
def _extract_domain (url : String) : String :=
  match findSchemeHost url.data with
  | some host => String.mk host
  | none => url

/-- `BingSearch._get_favicon_url` (lines 368-370). -/
def _get_favicon_url (domain : String) : String :=
  "https://" ++ domain ++ "/favicon.ico"

/-- The enrichment loop body of `_perform_search` (lines 346-350). -/
def enrich (h : SearchHit) : EnrichedHit :=
  let domain := _extract_domain h.link
  ⟨h.title, h.link, h.snippet, domain, _get_favicon_url domain⟩

/-- The `search_params` dict built by `_perform_search` (lines 309-328):
`count`, `setLang`, `mkt`, the safe-search flag mapped to `Strict`/`Off`,
and, when `time_period` is truthy and one of day/week/month, a `freshness`
entry (a `year` period adds nothing).  NOTE: in the source this dict is a
dead store — it is built and never passed to `BingSearchAPI`. -/
def buildSearchParams (num_results : Int) (language region : String)
    (safe_search : Bool) (time_period : Option String) : List (String × ParamVal) :=
  let base := [("count", ParamVal.num num_results),
               ("setLang", ParamVal.str language),
               ("mkt", ParamVal.str (language ++ "-" ++ region))]
  let base := base ++ [("safeSearch", ParamVal.str (if safe_search then "Strict" else "Off"))]
  match time_period with
  | none => base
  | some tp =>
    if tp = "" then base
    else if tp = "day" then base ++ [("freshness", ParamVal.str "Day")]
    else if tp = "week" then base ++ [("freshness", ParamVal.str "Week")]
    else if tp = "month" then base ++ [("freshness", ParamVal.str "Month")]
    else base

/-- The `BingSearchAPI` instance constructed inside `_perform_search`
(lines 333-339): `k = num_results`, `search_kwargs = {mkt, setLang}`, key
and endpoint from configuration (lines 71-73). -/
def performApi (cfg : Config) (num_results : Int) (language region : String) :
    BingSearchAPI :=
  { k := num_results,
    search_kwargs := [("mkt", language ++ "-" ++ region), ("setLang", language)],
    subscription_key := cfg.search_api_key,
    search_url := cfg.search_endpoint ++ "/search" }

/-- The result of one `_perform_search` unit. -/
structure PerformOutcome where
  hits : List EnrichedHit
  breaker : Breaker
  attempts : Nat
  request : Option (List (String × ParamVal))
deriving DecidableEq, Repr

/-- `BingSearch._perform_search` (lines 304-356): build the (unused)
`search_params` dict, construct the API wrapper, call `results`, enrich
each hit; any exception — including the missing-key `ValueError` raised by
`_search` — is caught by the blanket `except` (lines 354-356) and degrades
to an empty hit list. -/
def _perform_search (cfg : Config) (br : Breaker) (query : String)
    (num_results : Int) (language region : String) (safe_search : Bool)
    (time_period : Option String) (resp : UpstreamResponse) : PerformOutcome :=
  let _ := buildSearchParams num_results language region safe_search time_period
  let api := performApi cfg num_results language region
  let s := api.results br query (some num_results) resp
  match s.result with
  | Except.ok hits => ⟨hits.map enrich, s.breaker, s.attempts, s.request⟩
  | Except.error _ => ⟨[], s.breaker, s.attempts, s.request⟩

/-- The tool parameters `BingSearchParams` (lines 25-50). -/
structure BingSearchParams where
  query : List String
  num_results : Int
  language : String
  region : String
  safe_search : Bool
  time_period : Option String
deriving DecidableEq, Repr

/-- `MAX_RESULTS` (line 22). -/
def MAX_RESULTS : Int := 10

/-- The clamp of `execute` (lines 244-245): only values above
`MAX_RESULTS` are reduced. -/
def clampNum (n : Int) : Int :=
  if n > MAX_RESULTS then MAX_RESULTS else n

/-- The sequential linearization of the `asyncio.gather` fan-out of
`execute` (lines 251-262): one `_perform_search` unit per query, threading
the process-wide breaker state, with the transport's behaviour for the unit
at position `i` given by `oracle i`.  Returns the per-query hit lists in
input order, the final breaker state, and the total number of network
attempts. -/
def dispatch (cfg : Config) (num : Int) (language region : String)
    (safe : Bool) (tp : Option String) (oracle : Nat → UpstreamResponse) :
    List String → Nat → Breaker → List (List EnrichedHit) × Breaker × Nat
  | [], _, br => ([], br, 0)
  | q :: qs, i, br =>
    let r := _perform_search cfg br q num language region safe tp (oracle i)
    let rest := dispatch cfg num language region safe tp oracle qs (i + 1) r.breaker
    (r.hits :: rest.1, rest.2.1, r.attempts + rest.2.2)

/-- The summary sentence of `execute` (lines 267-270). -/
def summaryMessage (queries : List String) : String :=
  if queries.length > 1 then
    "我已从搜索引擎中分别搜索了: " ++ String.intercalate ", " queries
  else
    "我已从搜索引擎中搜索了: " ++ queries.headD ""

/-- The outcome of one `execute` call: the `BingSearchToolResult` fields
the claims are about (`content`, `error`, and the per-query output results
set by `_handle_queries_results`, lines 284-302), the breaker state after
the call, and the total number of network attempts.  The JSON serialization
of `content` (line 276) is the external `json` library; the embedded
`content` carries the summary message, with the structured results kept in
`output_results`. -/
structure ExecOutcome where
  content : String
  error : Option String
  output_results : List (String × List EnrichedHit)
  breaker : Breaker
  attempts : Nat
deriving DecidableEq, Repr

/-- `BingSearch.execute` (lines 211-282):
1. if the breaker is open, return an error result carrying the recorded
   reason, with no dispatch (lines 227-229);
2. if the query list is empty, return the "搜索查询不能为空" content with
   no dispatch (lines 241-242);
3. otherwise clamp `num_results` to `MAX_RESULTS`, fan out one
   `_perform_search` per query, and zip the queries with their hit lists
   (`_handle_queries_results`, line 298). -/
def execute (cfg : Config) (br : Breaker) (p : BingSearchParams)
    (oracle : Nat → UpstreamResponse) : ExecOutcome :=
  if br.unavailable then
    ⟨"", some ("搜索服务不可用: " ++ br.reason), [], br, 0⟩
  else if p.query = [] then
    ⟨"搜索查询不能为空", none, [], br, 0⟩
  else
    let num := clampNum p.num_results
    let d := dispatch cfg num p.language p.region p.safe_search p.time_period
      oracle p.query 0 br
    ⟨summaryMessage p.query, none, p.query.zip d.1, d.2.1, d.2.2⟩

/-- The caller-visible projection of an `ExecOutcome`: what the tool caller
can observe of the returned `BingSearchToolResult` (content, error, and the
structured results), excluding the model's network-attempt instrumentation. -/
def callerView (r : ExecOutcome) : String × Option String × List (String × List EnrichedHit) :=
  (r.content, r.error, r.output_results)

/-- A per-query failure that is not an authentication failure: a raised
exception (transport error / malformed JSON), a non-200 status other than
401, or a 200 body in which the expected `webPages.value` shape is absent. -/
def nonAuthFailure : UpstreamResponse → Bool
  | UpstreamResponse.exn _ => true
  | UpstreamResponse.http status _ parsed =>
    if status = 401 then false
    else if status = 200 then parsed.isNone
    else true

/-- One `_search` call, as an event of the process history: the instance it
was called on, its arguments, and the transport's behaviour. -/
structure SearchCall where
  api : BingSearchAPI
  query : String
  limit : Option Int
  resp : UpstreamResponse

/-- Run a sequence of `_search` calls, threading the process-wide breaker
state, and return the final breaker state. -/
def runSearchCalls (calls : List SearchCall) (br : Breaker) : Breaker :=
  calls.foldl (fun b c => (c.api._search b c.query c.limit c.resp).breaker) br

/-- The outcome of a `_perform_search` unit whose upstream interaction is a
non-authentication failure: an empty hit list and an unchanged breaker; a
network request is issued exactly when the breaker was closed and the key
nonempty. -/
def failurePerform (cfg : Config) (br : Breaker) (q : String) (m : Int)
    (l rg : String) : PerformOutcome :=
  if br.unavailable then ⟨[], br, 0, none⟩
  else if cfg.search_api_key = "" then ⟨[], br, 0, none⟩
  else ⟨[], br, 1, some (requestParams (performApi cfg m l rg) q (some m))⟩

/-- A demo configuration with a nonempty subscription key. -/
def cfgDemo : Config := ⟨"key", "https://api.bing.microsoft.com/v7.0"⟩

/-- A demo configuration with the subscription key unset. -/
def cfgNoKey : Config := ⟨"", "https://api.bing.microsoft.com/v7.0"⟩

/-- A demo raw item of an upstream 200 body. -/
def demoItem : RawItem := ⟨some "T", some "https://example.com/a", some "S"⟩

/-- A demo 200 response carrying six items. -/
def demoResp6 : UpstreamResponse :=
  UpstreamResponse.http 200 ""
    (some [demoItem, demoItem, demoItem, demoItem, demoItem, demoItem])

/-- A demo 200 response carrying one item. -/
def demoResp1 : UpstreamResponse := UpstreamResponse.http 200 "" (some [demoItem])

/-- A demo `BingSearchAPI` instance with a nonempty key. -/
def apiDemo : BingSearchAPI :=
  ⟨10, [], "key", "https://api.bing.microsoft.com/v7.0/search"⟩

/-- A demo oracle whose query 0 fails with a 500 and whose other queries
succeed with one item. -/
def oracleA : Nat → UpstreamResponse :=
  fun i => if i = 0 then UpstreamResponse.http 500 "server error" none else demoResp1

/-- A demo oracle whose query 0 fails with a transport exception and whose
other queries succeed with one item. -/
def oracleB : Nat → UpstreamResponse :=
  fun i => if i = 0 then UpstreamResponse.exn "boom" else demoResp1

/-- A demo oracle that always answers 401. -/
def oracle401 : Nat → UpstreamResponse :=
  fun _ => UpstreamResponse.http 401 "bad key" none

/-- The enrichment of the demo item. -/
def demoEnriched : EnrichedHit :=
  ⟨"T", "https://example.com/a", "S", "example.com",
   "https://example.com/favicon.ico"⟩

/-! ### Helper lemmas -/

lemma _search_open (api : BingSearchAPI) (br : Breaker) (q : String)
    (lim : Option Int) (resp : UpstreamResponse) (h : br.unavailable = true) :
    api._search br q lim resp = ⟨Except.ok [], br, 0, none⟩ := by
  simp [BingSearchAPI._search, h]

lemma _perform_search_open (cfg : Config) (br : Breaker) (q : String) (m : Int)
    (l rg : String) (s : Bool) (tp : Option String) (resp : UpstreamResponse)
    (h : br.unavailable = true) :
    _perform_search cfg br q m l rg s tp resp = ⟨[], br, 0, none⟩ := by
  simp [_perform_search, BingSearchAPI.results, _search_open _ _ _ _ _ h]

lemma dispatch_open (cfg : Config) (num : Int) (l rg : String) (s : Bool)
    (tp : Option String) (oracle : Nat → UpstreamResponse) (qs : List String)
    (i : Nat) (br : Breaker) (h : br.unavailable = true) :
    dispatch cfg num l rg s tp oracle qs i br
      = (qs.map (fun _ => []), br, 0) := by
  induction qs generalizing i with
  | nil => simp [dispatch]
  | cons q qs ih => simp [dispatch, _perform_search_open _ _ _ _ _ _ _ _ _ h, ih]

lemma dispatch_length (cfg : Config) (num : Int) (l rg : String) (s : Bool)
    (tp : Option String) (oracle : Nat → UpstreamResponse) (qs : List String)
    (i : Nat) (br : Breaker) :
    (dispatch cfg num l rg s tp oracle qs i br).1.length = qs.length := by
  induction qs generalizing i br with
  | nil => simp [dispatch]
  | cons q qs ih => simp [dispatch, ih]

lemma _search_nokey (api : BingSearchAPI) (br : Breaker) (q : String)
    (lim : Option Int) (resp : UpstreamResponse) (hbr : br.unavailable = false)
    (hk : api.subscription_key = "") :
    api._search br q lim resp
      = ⟨Except.error "Bing Search API key is required", br, 0, none⟩ := by
  simp [BingSearchAPI._search, hbr, hk]

lemma _perform_search_nokey (cfg : Config) (br : Breaker) (q : String) (m : Int)
    (l rg : String) (s : Bool) (tp : Option String) (resp : UpstreamResponse)
    (hk : cfg.search_api_key = "") :
    _perform_search cfg br q m l rg s tp resp = ⟨[], br, 0, none⟩ := by
  cases hbr : br.unavailable with
  | true => exact _perform_search_open _ _ _ _ _ _ _ _ _ hbr
  | false =>
    have hk' : (performApi cfg m l rg).subscription_key = "" := by
      simp [performApi, hk]
    simp [_perform_search, BingSearchAPI.results, _search_nokey _ _ _ _ _ hbr hk']

lemma dispatch_nokey (cfg : Config) (num : Int) (l rg : String) (s : Bool)
    (tp : Option String) (oracle : Nat → UpstreamResponse) (qs : List String)
    (i : Nat) (br : Breaker) (hk : cfg.search_api_key = "") :
    dispatch cfg num l rg s tp oracle qs i br
      = (qs.map (fun _ => []), br, 0) := by
  induction qs generalizing i br with
  | nil => simp [dispatch]
  | cons q qs ih => simp [dispatch, _perform_search_nokey _ _ _ _ _ _ _ _ _ hk, ih]

lemma _search_401 (api : BingSearchAPI) (br : Breaker) (q : String)
    (lim : Option Int) (body : String) (parsed : Option (List RawItem))
    (hbr : br.unavailable = false) (hk : api.subscription_key ≠ "") :
    api._search br q lim (UpstreamResponse.http 401 body parsed)
      = ⟨Except.ok [], ⟨true, "API密钥无效或API端点错误: " ++ body⟩, 1,
         some (requestParams api q lim)⟩ := by
  simp [BingSearchAPI._search, hbr, hk]

lemma _perform_search_401 (cfg : Config) (ρ q : String) (m : Int) (l rg : String)
    (s : Bool) (tp : Option String) (body : String) (parsed : Option (List RawItem))
    (hk : cfg.search_api_key ≠ "") :
    _perform_search cfg ⟨false, ρ⟩ q m l rg s tp (UpstreamResponse.http 401 body parsed)
      = ⟨[], ⟨true, "API密钥无效或API端点错误: " ++ body⟩, 1,
         some (requestParams (performApi cfg m l rg) q (some m))⟩ := by
  have hk' : (performApi cfg m l rg).subscription_key ≠ "" := by
    simpa [performApi] using hk
  simp [_perform_search, BingSearchAPI.results,
    _search_401 (performApi cfg m l rg) ⟨false, ρ⟩ q (some m) body parsed rfl hk']

lemma _perform_search_nonauth (cfg : Config) (br : Breaker) (q : String) (m : Int)
    (l rg : String) (s : Bool) (tp : Option String) (resp : UpstreamResponse)
    (h : nonAuthFailure resp = true) :
    _perform_search cfg br q m l rg s tp resp = failurePerform cfg br q m l rg := by
  cases hbr : br.unavailable with
  | true =>
    rw [_perform_search_open _ _ _ _ _ _ _ _ _ hbr]
    simp [failurePerform, hbr]
  | false =>
    cases hkey : (cfg.search_api_key = "" : Bool)
    case true =>
      have hk : cfg.search_api_key = "" := by simpa using hkey
      rw [_perform_search_nokey _ _ _ _ _ _ _ _ _ hk]
      simp [failurePerform, hbr, hk]
    case false =>
      have hk : ¬ cfg.search_api_key = "" := by simpa using hkey
      have hk' : ¬ (performApi cfg m l rg).subscription_key = "" := by
        simpa [performApi] using hk
      cases resp with
      | exn msg =>
        simp [_perform_search, BingSearchAPI.results, BingSearchAPI._search,
          hbr, hk', failurePerform, hk]
      | http status body parsed =>
        by_cases h200 : status = 200
        · subst h200
          have hp : parsed = none := by
            simpa [nonAuthFailure] using h
          subst hp
          simp [_perform_search, BingSearchAPI.results, BingSearchAPI._search,
            hbr, hk', failurePerform, hk]
        · have h401 : status ≠ 401 := by
            intro h4
            rw [h4] at h
            simp [nonAuthFailure] at h
          simp [_perform_search, BingSearchAPI.results, BingSearchAPI._search,
            hbr, hk', h200, h401, failurePerform, hk]

lemma dispatch_congr (cfg : Config) (num : Int) (l rg : String) (s : Bool)
    (tp : Option String) (o₁ o₂ : Nat → UpstreamResponse) (a : Nat)
    (hagree : ∀ i, i ≠ a → o₁ i = o₂ i)
    (h₁ : nonAuthFailure (o₁ a) = true) (h₂ : nonAuthFailure (o₂ a) = true)
    (qs : List String) (i : Nat) (br : Breaker) :
    dispatch cfg num l rg s tp o₁ qs i br = dispatch cfg num l rg s tp o₂ qs i br := by
  induction qs generalizing i br with
  | nil => rfl
  | cons q qs ih =>
    by_cases hia : i = a
    · subst hia
      rw [dispatch, dispatch, _perform_search_nonauth _ _ _ _ _ _ _ _ _ h₁,
        _perform_search_nonauth _ _ _ _ _ _ _ _ _ h₂, ih]
    · rw [dispatch, dispatch, hagree i hia, ih]

lemma _search_hits_le (api : BingSearchAPI) (br : Breaker) (q : String)
    (m : Int) (resp : UpstreamResponse) (hm : 0 ≤ m) (hkm : api.k = m) :
    ∀ hits, (api._search br q (some m) resp).result = Except.ok hits →
      hits.length ≤ m.toNat := by
  intro hits hres
  rw [BingSearchAPI._search] at hres
  by_cases hbr : br.unavailable
  · simp [hbr] at hres
    simp [hres]
  · by_cases hk : api.subscription_key = ""
    · simp [hbr, hk] at hres
    · simp only [hbr, hk] at hres
      have heff : effLimit api (some m) = m := by
        by_cases h0 : m = 0
        · simp [effLimit, h0, hkm, h0]
        · simp [effLimit, h0]
      cases resp with
      | exn msg =>
        simp at hres
        simp [hres]
      | http status body parsed =>
        by_cases h200 : status = 200
        · subst h200
          cases parsed with
          | none =>
            simp at hres
            simp [hres]
          | some items =>
            simp at hres
            subst hres
            simp only [heff, pyslice]
            rw [if_pos hm]
            exact List.length_take_le _ _
        · by_cases h401 : status = 401
          · subst h401
            simp at hres
            simp [hres]
          · simp [h200, h401] at hres
            simp [hres]

lemma _perform_search_hits_le (cfg : Config) (br : Breaker) (q : String)
    (m : Int) (l rg : String) (s : Bool) (tp : Option String)
    (resp : UpstreamResponse) (hm : 0 ≤ m) :
    (_perform_search cfg br q m l rg s tp resp).hits.length ≤ m.toNat := by
  rw [_perform_search]
  have hkm : (performApi cfg m l rg).k = m := rfl
  cases hres : ((performApi cfg m l rg).results br q (some m) resp).result with
  | ok hits =>
    simp only [BingSearchAPI.results, Option.getD] at hres
    have := _search_hits_le (performApi cfg m l rg) br q m resp hm hkm hits hres
    simp only [BingSearchAPI.results, Option.getD, hres]
    simpa using this
  | error e =>
    simp only [BingSearchAPI.results, Option.getD] at hres
    simp [BingSearchAPI.results, hres]

lemma _perform_search_hits_zero (cfg : Config) (br : Breaker) (q : String)
    (l rg : String) (s : Bool) (tp : Option String) (resp : UpstreamResponse) :
    (_perform_search cfg br q 0 l rg s tp resp).hits = [] := by
  have h := _perform_search_hits_le cfg br q 0 l rg s tp resp le_rfl
  simpa [List.length_eq_zero] using h

lemma dispatch_hits_zero (cfg : Config) (l rg : String) (s : Bool)
    (tp : Option String) (oracle : Nat → UpstreamResponse) (qs : List String)
    (i : Nat) (br : Breaker) :
    (dispatch cfg 0 l rg s tp oracle qs i br).1 = qs.map (fun _ => []) := by
  induction qs generalizing i br with
  | nil => rfl
  | cons q qs ih =>
    rw [dispatch]
    simp [_perform_search_hits_zero, ih]

lemma runSearchCalls_open (calls : List SearchCall) (r : String) :
    runSearchCalls calls ⟨true, r⟩ = ⟨true, r⟩ := by
  induction calls with
  | nil => rfl
  | cons c cs ih =>
    rw [runSearchCalls, List.foldl_cons,
      _search_open c.api ⟨true, r⟩ c.query c.limit c.resp rfl]
    exact ih

lemma takeWhile_no_slash (host rest : List Char) (h : '/' ∉ host) :
    (host ++ '/' :: rest).takeWhile (fun ch => ch ≠ '/') = host := by
  induction host with
  | nil => simp
  | cons c cs ih =>
    have hc : c ≠ '/' := by
      intro hcc
      exact h (by simp [hcc])
    have hcs : '/' ∉ cs := fun hin => h (List.mem_cons_of_mem _ hin)
    simp [hc]
    simpa using ih hcs

lemma findSchemeHost_https (host rest : List Char) (h1 : host ≠ [])
    (h2 : '/' ∉ host) :
    findSchemeHost
        ('h' :: 't' :: 't' :: 'p' :: 's' :: ':' :: '/' :: '/' :: (host ++ '/' :: rest))
      = some host := by
  cases host with
  | nil => exact absurd rfl h1
  | cons c cs =>
    have hc : c ≠ '/' := by
      intro hcc
      exact h2 (by simp [hcc])
    have hcs : '/' ∉ cs := fun hin => h2 (List.mem_cons_of_mem _ hin)
    rw [findSchemeHost]
    simp [matchSchemeAt, hc]
    simpa using takeWhile_no_slash cs rest hcs

lemma findSchemeHost_http (host rest : List Char) (h1 : host ≠ [])
    (h2 : '/' ∉ host) :
    findSchemeHost
        ('h' :: 't' :: 't' :: 'p' :: ':' :: '/' :: '/' :: (host ++ '/' :: rest))
      = some host := by
  cases host with
  | nil => exact absurd rfl h1
  | cons c cs =>
    have hc : c ≠ '/' := by
      intro hcc
      exact h2 (by simp [hcc])
    have hcs : '/' ∉ cs := fun hin => h2 (List.mem_cons_of_mem _ hin)
    rw [findSchemeHost]
    simp [matchSchemeAt, hc]
    simpa using takeWhile_no_slash cs rest hcs

lemma failurePerform_hits (cfg : Config) (br : Breaker) (q : String)
    (m : Int) (l rg : String) : (failurePerform cfg br q m l rg).hits = [] := by
  rw [failurePerform]
  split
  · rfl
  · split <;> rfl

lemma clampNum_nonneg (n : Nat) : (0 : Int) ≤ clampNum (n : Int) := by
  rw [clampNum, MAX_RESULTS]
  split <;> omega

lemma clampNum_toNat (n : Nat) : (clampNum (n : Int)).toNat = min n 10 := by
  rw [clampNum, MAX_RESULTS]
  split <;> omega

lemma dispatch_hits_le (cfg : Config) (num : Int) (l rg : String) (s : Bool)
    (tp : Option String) (oracle : Nat → UpstreamResponse) (qs : List String)
    (i : Nat) (br : Breaker) (hm : 0 ≤ num) :
    ∀ hs ∈ (dispatch cfg num l rg s tp oracle qs i br).1, hs.length ≤ num.toNat := by
  induction qs generalizing i br with
  | nil => simp [dispatch]
  | cons q qs' ih =>
    intro hs hmem
    rw [dispatch] at hmem
    simp only [List.mem_cons] at hmem
    cases hmem with
    | inl h =>
      rw [h]
      exact _perform_search_hits_le cfg br q num l rg s tp (oracle i) hm
    | inr h => exact ih (i + 1) _ hs h

lemma execute_closed (cfg : Config) (ρ : String) (q : String) (qs : List String)
    (nr : Int) (lang reg : String) (ss : Bool) (tp : Option String)
    (oracle : Nat → UpstreamResponse) :
    execute cfg ⟨false, ρ⟩ ⟨q :: qs, nr, lang, reg, ss, tp⟩ oracle
      = ⟨summaryMessage (q :: qs), none,
         (q :: qs).zip
           (dispatch cfg (clampNum nr) lang reg ss tp oracle (q :: qs) 0 ⟨false, ρ⟩).1,
         (dispatch cfg (clampNum nr) lang reg ss tp oracle (q :: qs) 0 ⟨false, ρ⟩).2.1,
         (dispatch cfg (clampNum nr) lang reg ss tp oracle (q :: qs) 0 ⟨false, ρ⟩).2.2⟩ := by
  rw [execute, if_neg (by simp), if_neg (by simp)]

/-! ### Claim theorems -/

/-- C1: tripping the breaker is idempotent with first-reason-wins: a 401
received on a closed breaker records the (prefixed) response body as the
reason; once open, any later sequence of `_search` calls — including later
would-be trips, which return at the breaker check before reaching the
network — leaves the breaker open with the recorded reason unchanged; in
particular a 401 carrying "reason A" followed by one carrying "reason B"
leaves the reason derived from "reason A". -/
theorem C1_trip_first_reason_wins
    (api : BingSearchAPI) (ρ q : String) (lim : Option Int)
    (body : String) (parsed : Option (List RawItem))
    (hk : api.subscription_key ≠ "") :
    (api._search ⟨false, ρ⟩ q lim (UpstreamResponse.http 401 body parsed)).breaker
      = ⟨true, "API密钥无效或API端点错误: " ++ body⟩ ∧
    (∀ (calls : List SearchCall) (r : String),
      runSearchCalls calls ⟨true, r⟩ = ⟨true, r⟩) ∧
    runSearchCalls
        [⟨apiDemo, "q1", some 10, UpstreamResponse.http 401 "reason A" none⟩,
         ⟨apiDemo, "q2", some 10, UpstreamResponse.http 401 "reason B" none⟩]
        ⟨false, ""⟩
      = ⟨true, "API密钥无效或API端点错误: reason A"⟩ := by
  refine ⟨?_, ?_, ?_⟩
  · rw [_search_401 _ _ _ _ _ _ rfl hk]
  · exact fun calls r => runSearchCalls_open calls r
  · rfl

theorem C1_trip_first_reason_wins_witness :
    (apiDemo._search ⟨false, ""⟩ "q" (some 10)
        (UpstreamResponse.http 401 "reason A" none)).breaker
      = ⟨true, "API密钥无效或API端点错误: reason A"⟩ :=
  (C1_trip_first_reason_wins apiDemo "" "q" (some 10) "reason A" none
    (by decide)).1

/-- C4: a 401 on any single query trips the breaker — at the `_search`
level, and through a whole `execute` batch whose first query receives the
401 — and every later `execute` call in the same process returns
immediately with zero network attempts, no outcomes, and an error message
carrying the recorded trip reason. -/
theorem C4_401_blocks_later_calls
    (api : BingSearchAPI) (ρ q : String) (lim : Option Int)
    (body : String) (parsed : Option (List RawItem))
    (hk : api.subscription_key ≠ "") :
    (api._search ⟨false, ρ⟩ q lim (UpstreamResponse.http 401 body parsed)).breaker
      = ⟨true, "API密钥无效或API端点错误: " ++ body⟩ ∧
    (∀ (cfg : Config) (r : String) (p : BingSearchParams)
       (oracle : Nat → UpstreamResponse),
       execute cfg ⟨true, r⟩ p oracle
         = ⟨"", some ("搜索服务不可用: " ++ r), [], ⟨true, r⟩, 0⟩) ∧
    (∀ (cfg : Config) (ρ₂ q₁ : String) (qs : List String) (nr : Int)
       (lang reg : String) (ss : Bool) (tp : Option String)
       (oracle : Nat → UpstreamResponse) (body₂ : String)
       (parsed₂ : Option (List RawItem)),
       cfg.search_api_key ≠ "" →
       oracle 0 = UpstreamResponse.http 401 body₂ parsed₂ →
       (execute cfg ⟨false, ρ₂⟩ ⟨q₁ :: qs, nr, lang, reg, ss, tp⟩ oracle).breaker
         = ⟨true, "API密钥无效或API端点错误: " ++ body₂⟩) := by
  refine ⟨?_, ?_, ?_⟩
  · rw [_search_401 _ _ _ _ _ _ rfl hk]
  · intro cfg r p oracle
    simp [execute]
  · intro cfg ρ₂ q₁ qs nr lang reg ss tp oracle body₂ parsed₂ hk₂ h0
    have hd : (dispatch cfg (clampNum nr) lang reg ss tp oracle (q₁ :: qs) 0
        ⟨false, ρ₂⟩).2.1 = ⟨true, "API密钥无效或API端点错误: " ++ body₂⟩ := by
      rw [dispatch, h0, _perform_search_401 _ _ _ _ _ _ _ _ _ _ hk₂]
      rw [dispatch_open _ _ _ _ _ _ _ _ _ _ rfl]
    simp [execute, hd]

theorem C4_401_blocks_later_calls_witness :
    (execute cfgDemo ⟨false, ""⟩ ⟨["q"], 10, "zh-CN", "CN", true, none⟩
        oracle401).breaker
      = ⟨true, "API密钥无效或API端点错误: bad key"⟩ :=
  (C4_401_blocks_later_calls apiDemo "" "q" (some 10) "bad key" none
      (by decide)).2.2
    cfgDemo "" "q" [] 10 "zh-CN" "CN" true none oracle401 "bad key" none
    (by decide) rfl

/-- C9 counterexample: with the breaker already open, a call with an empty
query array returns the unavailability error; its content is not the
no-query message — refuting, as stated, that every empty-query call's
response content indicates there was no query to search. -/
theorem C9_counterexample :
    execute cfgDemo ⟨true, "R"⟩ ⟨[], 10, "zh-CN", "CN", true, none⟩ oracleA
      = ⟨"", some ("搜索服务不可用: " ++ "R"), [], ⟨true, "R"⟩, 0⟩ ∧
    (execute cfgDemo ⟨true, "R"⟩ ⟨[], 10, "zh-CN", "CN", true, none⟩
        oracleA).content ≠ "搜索查询不能为空" := by
  exact ⟨rfl, by decide⟩

/-- C9 amended: a call with an empty query array performs no dispatch and
no network attempt whatever the breaker state; when the breaker is closed
the response content is the no-query message; when it is open the response
is the unavailability short-circuit instead. -/
theorem C9_empty_query_short_circuit (cfg : Config) (ρ : String) (nr : Int)
    (lang reg : String) (ss : Bool) (tp : Option String)
    (oracle : Nat → UpstreamResponse) :
    execute cfg ⟨false, ρ⟩ ⟨[], nr, lang, reg, ss, tp⟩ oracle
      = ⟨"搜索查询不能为空", none, [], ⟨false, ρ⟩, 0⟩ ∧
    (∀ br : Breaker,
       (execute cfg br ⟨[], nr, lang, reg, ss, tp⟩ oracle).attempts = 0 ∧
       (execute cfg br ⟨[], nr, lang, reg, ss, tp⟩ oracle).output_results = []) := by
  refine ⟨rfl, ?_⟩
  intro br
  cases br with
  | mk u r => cases u <;> simp [execute]

/-- C10: with the breaker closed and `num_results = 0`, the facade does
not clamp 0 (only values above `MAX_RESULTS` are reduced) and every
query's returned hit list is empty regardless of the upstream responses:
the final truncation slices the parsed list to zero elements. -/
theorem C10_zero_results (cfg : Config) (ρ : String) (qs : List String)
    (lang reg : String) (ss : Bool) (tp : Option String)
    (oracle : Nat → UpstreamResponse) :
    clampNum 0 = 0 ∧
    (execute cfg ⟨false, ρ⟩ ⟨qs, 0, lang, reg, ss, tp⟩
        oracle).output_results.map Prod.snd
      = qs.map (fun _ => ([] : List EnrichedHit)) := by
  refine ⟨rfl, ?_⟩
  cases qs with
  | nil => rfl
  | cons q qs' =>
    have hd := dispatch_hits_zero cfg lang reg ss tp oracle (q :: qs') 0 ⟨false, ρ⟩
    have hc : clampNum 0 = 0 := rfl
    simp only [execute]
    rw [if_neg (by simp), if_neg (by simp), hc, hd]
    simp [List.map_snd_zip]

/-- C5: the batch result pairs exactly one outcome to each input query, in
input order: the dispatcher returns one hit list per query (same length,
any breaker state, any completion behaviour of the modelled units), and the
facade's outcome list projects back to the input query array itself. -/
theorem C5_batch_order (cfg : Config) (ρ : String) (q : String)
    (qs : List String) (nr : Int) (lang reg : String) (ss : Bool)
    (tp : Option String) (oracle : Nat → UpstreamResponse) :
    (∀ (queries : List String) (i : Nat) (br : Breaker),
       (dispatch cfg (clampNum nr) lang reg ss tp oracle queries i br).1.length
         = queries.length) ∧
    (execute cfg ⟨false, ρ⟩ ⟨q :: qs, nr, lang, reg, ss, tp⟩
        oracle).output_results.length = (q :: qs).length ∧
    (execute cfg ⟨false, ρ⟩ ⟨q :: qs, nr, lang, reg, ss, tp⟩
        oracle).output_results.map Prod.fst = q :: qs := by
  have hlen := dispatch_length cfg (clampNum nr) lang reg ss tp oracle
    (q :: qs) 0 ⟨false, ρ⟩
  refine ⟨fun queries i br => dispatch_length cfg _ lang reg ss tp oracle queries i br,
    ?_, ?_⟩
  · simp only [execute]
    rw [if_neg (by simp), if_neg (by simp)]
    simp [List.length_zip, hlen]
  · simp only [execute]
    rw [if_neg (by simp), if_neg (by simp)]
    exact List.map_fst_zip _ _ (le_of_eq hlen.symm)

/-- C2 counterexample: with the breaker closed and no API credential, the
tool-level outcome has `error = none` and an empty hit list for the query —
the caller-visible result is identical to that of a run with a credential
whose upstream found no results, refuting that the missing-credential
error surfaces to the caller as an outcome distinct from an empty
"no results" hit list. -/
theorem C2_counterexample :
    callerView (execute cfgNoKey ⟨false, ""⟩ ⟨["q"], 10, "zh-CN", "CN", true, none⟩
        (fun _ => demoResp1))
      = callerView (execute cfgDemo ⟨false, ""⟩ ⟨["q"], 10, "zh-CN", "CN", true, none⟩
        (fun _ => UpstreamResponse.http 200 "" (some []))) ∧
    (execute cfgNoKey ⟨false, ""⟩ ⟨["q"], 10, "zh-CN", "CN", true, none⟩
        (fun _ => demoResp1)).error = none ∧
    (execute cfgNoKey ⟨false, ""⟩ ⟨["q"], 10, "zh-CN", "CN", true, none⟩
        (fun _ => demoResp1)).output_results = [("q", [])] := by
  exact ⟨rfl, rfl, rfl⟩

/-- C2 amended: with the breaker closed and no credential configured, the
inner client `_search` does raise the configuration error (the
`ValueError`) before any network attempt, but `_perform_search`'s blanket
exception handler absorbs it, so the tool caller receives `error = none`
and an empty hit list for every query — indistinguishable from "no
results" — with zero network attempts. -/
theorem C2_missing_key_absorbed
    (kk : Int) (sk : List (String × String)) (su ρ q : String)
    (lim : Option Int) (resp : UpstreamResponse) :
    (BingSearchAPI._search ⟨kk, sk, "", su⟩ ⟨false, ρ⟩ q lim resp).result
      = Except.error "Bing Search API key is required" ∧
    (BingSearchAPI._search ⟨kk, sk, "", su⟩ ⟨false, ρ⟩ q lim resp).attempts = 0 ∧
    (∀ (ep q₁ : String) (qs : List String) (nr : Int) (lang reg : String)
       (ss : Bool) (tp : Option String) (oracle : Nat → UpstreamResponse),
       (execute ⟨"", ep⟩ ⟨false, ρ⟩ ⟨q₁ :: qs, nr, lang, reg, ss, tp⟩
           oracle).error = none ∧
       (execute ⟨"", ep⟩ ⟨false, ρ⟩ ⟨q₁ :: qs, nr, lang, reg, ss, tp⟩
           oracle).output_results.map Prod.snd
         = (q₁ :: qs).map (fun _ => ([] : List EnrichedHit)) ∧
       (execute ⟨"", ep⟩ ⟨false, ρ⟩ ⟨q₁ :: qs, nr, lang, reg, ss, tp⟩
           oracle).attempts = 0) := by
  refine ⟨?_, ?_, ?_⟩
  · rw [_search_nokey _ _ _ _ _ rfl rfl]
  · rw [_search_nokey _ _ _ _ _ rfl rfl]
  · intro ep q₁ qs nr lang reg ss tp oracle
    have hd := dispatch_nokey ⟨"", ep⟩ (clampNum nr) lang reg ss tp oracle
      (q₁ :: qs) 0 ⟨false, ρ⟩ rfl
    rw [execute_closed, hd]
    refine ⟨rfl, ?_, rfl⟩
    simp [List.map_snd_zip]

/-- C3: the upstream GET request for a dispatched query carries exactly the
parameters `q`, `count`, `mkt` (composed as language-region) and `setLang`;
the `search_params` dict that `_perform_search` assembles — which does map
the safe-search flag to `Strict`/`Off` and day/week/month to `freshness`
values — is a dead store, never passed to `BingSearchAPI`, so no
`safeSearch` and no `freshness` parameter ever reaches the request. -/
theorem C3_safeSearch_freshness_dropped :
    (_perform_search cfgDemo ⟨false, ""⟩ "cats" 5 "zh-CN" "CN" true (some "day")
        demoResp1).request
      = some [("q", ParamVal.str "cats"), ("count", ParamVal.num 5),
              ("mkt", ParamVal.str "zh-CN-CN"), ("setLang", ParamVal.str "zh-CN")] ∧
    ("safeSearch", ParamVal.str "Strict")
        ∈ buildSearchParams 5 "zh-CN" "CN" true (some "day") ∧
    ("freshness", ParamVal.str "Day")
        ∈ buildSearchParams 5 "zh-CN" "CN" true (some "day") := by
  exact ⟨rfl, by decide, by decide⟩

/-- C6 counterexample: a call requesting `num_results = -5` is not clamped
(only values above 10 are), and Python's negative slice keeps all but the
last five parsed items: with six upstream items the query returns one hit,
while `min (-5) 10 = -5` — refuting, as stated for every call, that the
returned hit list never exceeds `min(requested count, 10)` entries. -/
theorem C6_counterexample :
    ¬ (∀ pr ∈ (execute cfgDemo ⟨false, ""⟩ ⟨["a"], -5, "zh-CN", "CN", true, none⟩
          (fun _ => demoResp6)).output_results,
        (pr.2.length : Int) ≤ min (-5 : Int) 10) := by
  decide

/-- C6 amended: for every call whose requested count is a nonnegative `n`,
each query's returned hit list has at most `min n 10` entries: the facade
clamps values above 10 to 10 and the API layer truncates the parsed list
to the (clamped) count. -/
theorem C6_count_clamped (n : Nat) (cfg : Config) (br : Breaker)
    (qs : List String) (lang reg : String) (ss : Bool) (tp : Option String)
    (oracle : Nat → UpstreamResponse) (pr : String × List EnrichedHit)
    (hmem : pr ∈ (execute cfg br ⟨qs, (n : Int), lang, reg, ss, tp⟩
      oracle).output_results) :
    pr.2.length ≤ min n 10 := by
  cases br with
  | mk u r =>
    cases u with
    | true => simp [execute] at hmem
    | false =>
      cases qs with
      | nil => simp [execute] at hmem
      | cons q qs' =>
        rw [execute_closed] at hmem
        obtain ⟨a, b⟩ := pr
        have hb : b ∈ (dispatch cfg (clampNum (n : Int)) lang reg ss tp oracle
            (q :: qs') 0 ⟨false, r⟩).1 := (List.of_mem_zip hmem).2
        have := dispatch_hits_le cfg (clampNum (n : Int)) lang reg ss tp oracle
          (q :: qs') 0 ⟨false, r⟩ (clampNum_nonneg n) b hb
        rw [clampNum_toNat] at this
        exact this

theorem C6_count_clamped_witness :
    (("a", [demoEnriched, demoEnriched, demoEnriched]) :
        String × List EnrichedHit).2.length ≤ min 3 10 :=
  C6_count_clamped 3 cfgDemo ⟨false, ""⟩ ["a"] "zh-CN" "CN" true none
    (fun _ => demoResp6) ("a", [demoEnriched, demoEnriched, demoEnriched])
    (by decide)

/-- C7: failure isolation: for two batch runs that differ only in query
position `a`'s upstream behaviour, both being non-401 failures (a non-401
error status such as 500, a transport exception, or a 200 body without the
expected shape), the entire batch results are identical — in particular
every other query's hit list is unchanged — the failing query itself
contributes an empty hit list whatever the breaker state, and the batch
still has one hit list per query (no exception escapes a unit). -/
theorem C7_failure_isolation (cfg : Config) (num : Int) (lang reg : String)
    (ss : Bool) (tp : Option String) (qs : List String) (br : Breaker)
    (a : Nat) (o₁ o₂ : Nat → UpstreamResponse)
    (hagree : ∀ i, i ≠ a → o₁ i = o₂ i)
    (h₁ : nonAuthFailure (o₁ a) = true)
    (h₂ : nonAuthFailure (o₂ a) = true) :
    dispatch cfg num lang reg ss tp o₁ qs 0 br
      = dispatch cfg num lang reg ss tp o₂ qs 0 br ∧
    (∀ (q₀ : String) (br₀ : Breaker),
       (_perform_search cfg br₀ q₀ num lang reg ss tp (o₁ a)).hits = []) ∧
    (dispatch cfg num lang reg ss tp o₁ qs 0 br).1.length = qs.length := by
  refine ⟨dispatch_congr cfg num lang reg ss tp o₁ o₂ a hagree h₁ h₂ qs 0 br,
    ?_, dispatch_length cfg num lang reg ss tp o₁ qs 0 br⟩
  intro q₀ br₀
  rw [_perform_search_nonauth _ _ _ _ _ _ _ _ _ h₁]
  exact failurePerform_hits cfg br₀ q₀ num lang reg

theorem C7_failure_isolation_witness :
    dispatch cfgDemo 10 "zh-CN" "CN" true none oracleA ["a", "b"] 0 ⟨false, ""⟩
      = dispatch cfgDemo 10 "zh-CN" "CN" true none oracleB ["a", "b"] 0 ⟨false, ""⟩ :=
  (C7_failure_isolation cfgDemo 10 "zh-CN" "CN" true none ["a", "b"] ⟨false, ""⟩
    0 oracleA oracleB
    (fun i h => by simp [oracleA, oracleB, h]) (by decide) (by decide)).1

/-- C8: domain extraction and favicon synthesis are pure and total: a link
of shape `http(s)://host/...` yields the host segment as domain, a link not
matching the pattern is returned unchanged, and the favicon URL for a
domain is exactly `https://` + domain + `/favicon.ico`. -/
theorem C8_domain_favicon :
    (∀ (host rest : List Char), host ≠ [] → '/' ∉ host →
       _extract_domain (String.mk
           ('h' :: 't' :: 't' :: 'p' :: 's' :: ':' :: '/' :: '/' ::
             (host ++ '/' :: rest)))
         = String.mk host) ∧
    (∀ (host rest : List Char), host ≠ [] → '/' ∉ host →
       _extract_domain (String.mk
           ('h' :: 't' :: 't' :: 'p' :: ':' :: '/' :: '/' ::
             (host ++ '/' :: rest)))
         = String.mk host) ∧
    _extract_domain "https://example.com/a/b" = "example.com" ∧
    _extract_domain "not a url" = "not a url" ∧
    (∀ domain : String,
       _get_favicon_url domain = "https://" ++ domain ++ "/favicon.ico") := by
  refine ⟨?_, ?_, by decide, by decide, fun domain => rfl⟩
  · intro host rest h1 h2
    rw [_extract_domain]
    have hdata : (String.mk ('h' :: 't' :: 't' :: 'p' :: 's' :: ':' :: '/' :: '/' ::
        (host ++ '/' :: rest))).data
        = 'h' :: 't' :: 't' :: 'p' :: 's' :: ':' :: '/' :: '/' ::
          (host ++ '/' :: rest) := rfl
    rw [hdata, findSchemeHost_https host rest h1 h2]
  · intro host rest h1 h2
    rw [_extract_domain]
    have hdata : (String.mk ('h' :: 't' :: 't' :: 'p' :: ':' :: '/' :: '/' ::
        (host ++ '/' :: rest))).data
        = 'h' :: 't' :: 't' :: 'p' :: ':' :: '/' :: '/' ::
          (host ++ '/' :: rest) := rfl
    rw [hdata, findSchemeHost_http host rest h1 h2]

theorem C8_domain_favicon_witness :
    _extract_domain (String.mk
        ('h' :: 't' :: 't' :: 'p' :: 's' :: ':' :: '/' :: '/' ::
          (['e', 'x', 'a'] ++ '/' :: ['b'])))
      = String.mk ['e', 'x', 'a'] :=
  C8_domain_favicon.1 ['e', 'x', 'a'] ['b'] (by decide) (by decide)

end BingSearchModel
